import Mathlib

/-!
Verification development for the project-catalyst analysis pipeline
(`skills/project-analyzer/scripts/`): a shallow embedding of the tree
scanner (`analyze-structure.py`), the rule engine and priority scorer
(`detect-patterns.py`), the report renderer (`generate-report.py`) and
the health scorer shared with the persistence collaborator
(`memory_integration.py`), together with theorems settling the spec's
claims about them.

Modelling conventions: relative paths are lists of components; Python
sets/lists of paths are Lean lists; Python float arithmetic on the
small exact decimal constants involved is modelled over `ℚ` (all
priority-score products and the health-score comparisons involved are
exact and ordered identically in both arithmetics); code that raises
an exception is modelled with `Option` (`none` = raise).
-/

/-- Occurrence of one character list inside another, by scanning for a
position where the pattern is a prefix. -/
def charsInfix (pat : List Char) : List Char → Bool
  | [] => pat.isEmpty
  | c :: cs => pat.isPrefixOf (c :: cs) || charsInfix pat cs

/-- `strStartsWith s pat` models Python's `s.startswith(pat)`. -/
def strStartsWith (s pat : String) : Bool :=
  pat.toList.isPrefixOf s.toList

/-- `strEndsWith s pat` models Python's `s.endswith(pat)`. -/
def strEndsWith (s pat : String) : Bool :=
  pat.toList.isSuffixOf s.toList

/-- Substring test: `containsSub s pat` models Python's `pat in s` for a
non-empty literal `pat` (true iff `pat` occurs in `s`). -/
def containsSub (s pat : String) : Bool :=
  charsInfix pat.toList s.toList

/-- From `ProjectAnalyzer._should_skip`: a file or directory name is
skipped when it equals or starts with one of the fixed exclusion names,
or ends with one of the compiled-artifact suffixes (patterns beginning
with `*`). -/
def shouldSkip (name : String) : Bool :=
  let skipPatterns : List String :=
    ["node_modules", "__pycache__", ".git", ".venv", "venv",
     "target", "dist", "build", ".next", ".nuxt",
     "*.pyc", "*.class", "*.o", "*.so"]
  skipPatterns.any (fun pat =>
    if strStartsWith pat "*" then strEndsWith name (String.mk (pat.toList.drop 1))
    else (name == pat || strStartsWith name pat))

/-- A directory tree: named subdirectory entries plus plain file names,
the filesystem input of `ProjectAnalyzer.scan_structure`. -/
inductive FSDir where
  | node (entries : List (String × FSDir)) (files : List String)

/-- The scan output of `ProjectAnalyzer.scan_structure` restricted to the
fields the inventory claims are about: relative paths (as component
lists) of the kept directories and files, with the two counters the
code increments alongside each append. -/
structure Inventory where
  directories : List (List String)
  files : List (List String)
  directory_count : Nat
  file_count : Nat

/-- Pointwise union of two partial inventories (list append and counter
addition), used to assemble the recursive scan. -/
def Inventory.union (a b : Inventory) : Inventory :=
  ⟨a.directories ++ b.directories, a.files ++ b.files,
   a.directory_count + b.directory_count, a.file_count + b.file_count⟩

/-- The per-directory file pass of `scan_structure`: every file whose
name survives `_should_skip` is recorded under the current relative
root, and `file_count` is incremented once per recorded file. -/
def filesInventory (base : List String) (files : List String) : Inventory :=
  let kept := files.filter (fun f => !shouldSkip f)
  ⟨[], kept.map (fun f => base ++ [f]), 0, kept.length⟩

mutual

/-- The `os.walk` traversal of `scan_structure` from a directory whose
relative path is `base`: subdirectory entries are pruned with
`_should_skip` before being either recorded or descended into, then the
directory's own files are recorded. -/
def scanDir (base : List String) : FSDir → Inventory
  | .node entries files =>
      Inventory.union (scanEntries base entries) (filesInventory base files)

/-- Walk the pruned subdirectory entries of one directory: a skipped
entry contributes nothing (and is never descended into); a kept entry
contributes its own relative path, one directory-count increment, and
everything its recursive scan yields. -/
def scanEntries (base : List String) : List (String × FSDir) → Inventory
  | [] => ⟨[], [], 0, 0⟩
  | (name, sub) :: rest =>
      if shouldSkip name then scanEntries base rest
      else
        Inventory.union ⟨[base ++ [name]], [], 1, 0⟩
          (Inventory.union (scanDir (base ++ [name]) sub) (scanEntries base rest))

end

/-- The fixed `PROJECT_INDICATORS` table of `ProjectAnalyzer`, in its
source (insertion) order. -/
def projectIndicators : List (String × List String) :=
  [("node", ["package.json", "package-lock.json", "node_modules/"]),
   ("python", ["requirements.txt", "setup.py", "pyproject.toml", "__pycache__/"]),
   ("java", ["pom.xml", "build.gradle", "build.gradle.kts", "gradlew"]),
   ("rust", ["Cargo.toml", "Cargo.lock", "target/"]),
   ("go", ["go.mod", "go.sum"]),
   ("ruby", ["Gemfile", "Gemfile.lock"]),
   ("php", ["composer.json", "composer.lock"]),
   ("csharp", ["*.csproj", "*.sln"])]

/-- One indicator test from `ProjectAnalyzer._detect_project_types`: a
trailing `/` means a name-prefix match against directories, a leading
`*` means a suffix match against files, and otherwise the indicator
matches when it occurs literally in `files` or some file path ends with
it. -/
def indicatorMatches (files directories : List String) (ind : String) : Bool :=
  if strEndsWith ind "/" then
    directories.any (fun d => strStartsWith d (String.mk (ind.toList.dropLast)))
  else if strStartsWith ind "*" then
    files.any (fun f => strEndsWith f (String.mk (ind.toList.drop 1)))
  else
    files.contains ind || files.any (fun f => strEndsWith f ind)

/-- `ProjectAnalyzer._detect_project_types`: an ecosystem tag is added
(once, on the first matching indicator — membership is unaffected by the
`break`) exactly when any of its indicators matches. -/
def detectProjectTypes (files directories : List String) : List String :=
  (projectIndicators.filter
    (fun e => e.2.any (indicatorMatches files directories))).map (fun e => e.1)

/-- A rule's `check` value from YAML: a single path or a list of paths,
as `_check_directory_absence` distinguishes with `isinstance(check, str)`. -/
inductive CheckVal where
  | str (s : String)
  | list (l : List String)

/-- The `isinstance(check, str)` normalisation at the top of
`PatternDetector._check_directory_absence`: a single string becomes a
one-element list. -/
def CheckVal.toPathList : CheckVal → List String
  | .str s => [s]
  | .list l => l

/-- A template variant from a rule's `recommendation.variants` list
(`condition` defaults to the empty string, as `variant.get('condition', '')`). -/
structure Variant where
  condition : String
  template : String
deriving DecidableEq, Repr

/-- A rule's `recommendation` mapping: remediation template, reason, and
optional language-specific variants (an absent `variants` key behaves
exactly like an empty list, since `_select_variant` over an empty list
returns `None`). -/
structure RecTemplate where
  template : String
  reason : String
  variants : List Variant
deriving DecidableEq, Repr

/-- One detection rule as loaded from the patterns YAML.  `type`,
`applies_when`, `confidence`, `severity` and `recommendation` are
optional keys (`pattern.get(...)`); `id` is a string as the data model
requires (`id: unique string`). -/
structure Rule where
  id : String
  type : Option String
  check : CheckVal
  applies_when : Option String
  confidence : Option String
  severity : Option String
  recommendation : Option RecTemplate

/-- The per-rule output record built by `PatternDetector._apply_pattern`:
the `recommendation` key is attached only when the issue was found and
the rule defines one. -/
structure Detection where
  id : String
  dtype : Option String
  confidence : String
  severity : String
  issue_found : Bool
  recommendation : Option RecTemplate
deriving DecidableEq, Repr

/-- One entry of the `recommendations` output list built in
`PatternDetector.detect`. -/
structure RecOut where
  id : String
  template : String
  reason : String
  severity : String
  confidence : String
  priority_score : ℚ
deriving DecidableEq, Repr

/-- The `summary` counters of `PatternDetector.detect`. -/
structure Summary where
  total_patterns : Nat
  issues_found : Nat
  high_severity : Nat
  medium_severity : Nat
  low_severity : Nat
deriving DecidableEq, Repr

/-- The output bundle of `PatternDetector.detect` (the fields derived
from the rule evaluation; the pass-through project metadata fields are
not modelled). -/
structure DetectResults where
  detections : List Detection
  recommendations : List RecOut
  summary : Summary

/-- `PatternDetector._check_condition`: a fixed set of hand-matched
substring checks over the condition text, each testing file membership;
an unrecognised condition defaults to `True` (fail-open). -/
def checkCondition (condition : String) (files : List String) : Bool :=
  if containsSub condition "package.json exists" then
    files.contains "package.json"
  else if containsSub condition "requirements.txt" || containsSub condition "setup.py exists" then
    files.contains "requirements.txt" || files.contains "setup.py"
  else if containsSub condition "pom.xml" || containsSub condition "build.gradle exists" then
    files.any (fun f => containsSub f "pom.xml" || containsSub f "build.gradle")
  else
    true

/-- `PatternDetector._check_file_absence`: the file is absent when it is
not literally in `files` and no file path ends with it. -/
def checkFileAbsence (check : String) (files : List String) : Bool :=
  !(files.contains check) && !(files.any (fun f => strEndsWith f check))

/-- `PatternDetector._check_directory_absence` after its normalisation:
markers are examined in list order; a marker ending in `.yml`/`.yaml`
makes the function return `True` immediately (the source's `return True
 # Simplified - would need files set`), a directory marker found as a
prefix of some inventory directory returns `False`, and exhausting the
list returns `True`. -/
def checkDirectoryAbsence : List String → List String → Bool
  | [], _ => true
  | path :: rest, directories =>
      if strEndsWith path ".yml" || strEndsWith path ".yaml" then true
      else if directories.any (fun d => strStartsWith d path) then false
      else checkDirectoryAbsence rest directories

/-- `PatternDetector._check_file_quality`: the stubbed quality check —
`False` when the file does not exist, and `False` (placeholder) when it
does. -/
def checkFileQuality (filePath : String) (files : List String) : Bool :=
  if !(files.contains filePath) then false else false

/-- `PatternDetector._select_variant`: the first variant whose condition
passes `_check_condition`. -/
def selectVariant (variants : List Variant) (files : List String) : Option Variant :=
  variants.find? (fun v => checkCondition v.condition files)

/-- A rule's Python priority inputs: `_calculate_priority`'s
`confidence_map.get(confidence, 0.7)`. -/
def confidenceWeightMap (confidence : String) : ℚ :=
  if confidence = "high" then 1 else if confidence = "medium" then 0.7
  else if confidence = "low" then 0.4 else 0.7

/-- `_calculate_priority`'s `severity_map.get(severity, 5)`. -/
def severityBaseMap (severity : String) : ℚ :=
  if severity = "high" then 10 else if severity = "medium" then 5
  else if severity = "low" then 2 else 5

/-- `_calculate_priority`'s `multiplier_map.get(severity, 0.6)`. -/
def severityMultiplierMap (severity : String) : ℚ :=
  if severity = "high" then 1 else if severity = "medium" then 0.6
  else if severity = "low" then 0.3 else 0.6

/-- `PatternDetector._calculate_priority`: the product
`confidence * multiplier * priority_score` of the three table lookups. -/
def calculatePriority (confidence severity : String) : ℚ :=
  confidenceWeightMap confidence * severityMultiplierMap severity * severityBaseMap severity

/-- The detection record `_apply_pattern` builds once the
`applies_when` gate has passed: confidence and severity default to
`"medium"`, `issue_found` comes from the type dispatch (an unknown or
missing type leaves it `False`), and the recommendation (with its
variant-selected template) is attached only when the issue was found.
A list-valued `check` reaching the `file_absence`/`file_quality`
branches raises `TypeError` in the source and is unreachable from the
repository's configurations; those two corners are modelled as no
issue and are relied on by no claim. -/
def mkDetection (p : Rule) (files directories : List String) : Detection :=
  let issue : Bool :=
    if p.type = some "file_absence" then
      (match p.check with
       | .str s => checkFileAbsence s files
       | .list _ => false)
    else if p.type = some "directory_absence" then
      checkDirectoryAbsence p.check.toPathList directories
    else if p.type = some "file_quality" then
      (match p.check with
       | .str s => checkFileQuality s files
       | .list _ => false)
    else false
  { id := p.id
    dtype := p.type
    confidence := p.confidence.getD "medium"
    severity := p.severity.getD "medium"
    issue_found := issue
    recommendation :=
      if issue then
        p.recommendation.map (fun r =>
          match selectVariant r.variants files with
          | some v => { r with template := v.template }
          | none => r)
      else none }

/-- `PatternDetector._apply_pattern`: when `applies_when` is present and
truthy (non-empty) and its condition fails, the rule yields no
detection (`return None`); otherwise the detection record is built. -/
def applyPattern (p : Rule) (files directories : List String) : Option Detection :=
  match p.applies_when with
  | some cond =>
      if cond == "" then some (mkDetection p files directories)
      else if checkCondition cond files then some (mkDetection p files directories)
      else none
  | none => some (mkDetection p files directories)

/-- The Boolean applicability gate of `_apply_pattern` (truthy
`applies_when` and failing condition means not applicable). -/
def ruleApplies (p : Rule) (files : List String) : Bool :=
  match p.applies_when with
  | some cond => cond == "" || checkCondition cond files
  | none => true

/-- The recommendation entry `PatternDetector.detect` appends for a
detection with `issue_found` and a `recommendation` key. -/
def mkRecOut (d : Detection) (rt : RecTemplate) : RecOut :=
  { id := d.id
    template := rt.template
    reason := rt.reason
    severity := d.severity
    confidence := d.confidence
    priority_score := calculatePriority d.confidence d.severity }

/-- The recommendations accumulated by the `detect` loop, in rule
order, before the final sort. -/
def preRecommendations (ds : List Detection) : List RecOut :=
  ds.filterMap (fun d =>
    if d.issue_found then d.recommendation.map (mkRecOut d) else none)

/-- Insert into a descending-sorted list, after every element of
strictly larger key and before every element of smaller-or-equal key:
the insertion step of a stable descending sort. -/
def insertDescBy (key : α → ℚ) (a : α) : List α → List α
  | [] => [a]
  | b :: bs => if key a < key b then b :: insertDescBy key a bs else a :: b :: bs

/-- The stable descending sort modelling Python's
`list.sort(key=..., reverse=True)` (a stable sort is extensionally
determined by sortedness plus stability, so the algorithm choice is
immaterial). -/
def sortDescBy (key : α → ℚ) : List α → List α
  | [] => []
  | a :: as => insertDescBy key a (sortDescBy key as)

/-- `PatternDetector.detect`: evaluate every loaded rule in order,
keeping the detections of applicable rules, folding the summary
counters over the flagged detections, and sorting the accumulated
recommendations by descending priority score. -/
def detect (ps : List Rule) (files directories : List String) : DetectResults :=
  let ds := ps.filterMap (fun p => applyPattern p files directories)
  { detections := ds
    recommendations := sortDescBy (fun r => r.priority_score) (preRecommendations ds)
    summary :=
      { total_patterns := ps.length
        issues_found := ds.countP (fun d => d.issue_found)
        high_severity := ds.countP (fun d => d.issue_found && d.severity == "high")
        medium_severity := ds.countP (fun d => d.issue_found && d.severity == "medium")
        low_severity := ds.countP (fun d => d.issue_found && d.severity == "low") } }

/-- The status glyphs of `ReportGenerator.STATUS_ICONS` used below. -/
def ICON_OK : String := "✅"

/-- The `warning` glyph of `STATUS_ICONS`. -/
def ICON_WARNING : String := "⚠️"

/-- The `error` glyph of `STATUS_ICONS`. -/
def ICON_ERROR : String := "❌"

/-- The `info` glyph of `STATUS_ICONS`. -/
def ICON_INFO : String := "ℹ️"

/-- The `rocket` glyph of `STATUS_ICONS`. -/
def ICON_ROCKET : String := "🚀"

/-- The real-valued (here rational-valued) health score both
`ReportGenerator._generate_health_score` and
`MemoryIntegration._calculate_health_score` compute before formatting:
`max(0, 100 - (issues_found/total_patterns)*100 - high*20 - medium*10)`.
Meaningful only under the `total_patterns ≠ 0` guard of its callers. -/
def healthQ (s : Summary) : ℚ :=
  max 0 (100 - ((s.issues_found : ℚ) / (s.total_patterns : ℚ)) * 100
           - (s.high_severity : ℚ) * 20 - (s.medium_severity : ℚ) * 10)

/-- Python's `int()` truncation toward zero on a rational. -/
def pyInt (q : ℚ) : ℤ :=
  if q < 0 then ⌈q⌉ else ⌊q⌋

/-- Rounding to the nearest integer with ties to even: the value Python's
`format(x, '.0f')` prints for a float `x`. -/
def roundHalfEven (q : ℚ) : ℤ :=
  let f := ⌊q⌋
  if q - f < 1 / 2 then f
  else if 1 / 2 < q - f then f + 1
  else if f % 2 = 0 then f else f + 1

/-- `MemoryIntegration._calculate_health_score`: truncate the clamped
score with `int(...)`; with `total_patterns == 0` present in the
summary, `issues_found / total_patterns` raises `ZeroDivisionError`
(the `summary.get('total_patterns', 1)` default only covers a missing
key), modelled as `none`. -/
def memCalculateHealthScore (s : Summary) : Option ℤ :=
  if s.total_patterns = 0 then none else some (pyInt (healthQ s))

/-- The integer `ReportGenerator._generate_health_score` interpolates
with `{health_score:.0f}`: the clamped score rounded to the nearest
integer, ties to even.  Raises `ZeroDivisionError` (→ `none`) exactly
as the memory-side scorer does when `total_patterns == 0`. -/
def genHealthPrinted (s : Summary) : Option ℤ :=
  if s.total_patterns = 0 then none else some (roundHalfEven (healthQ s))

/-- The rating band and icon `_generate_health_score` selects from the
(unrounded) score. -/
def healthRating (h : ℚ) : String × String :=
  if 90 ≤ h then ("Excellent", ICON_ROCKET)
  else if 75 ≤ h then ("Good", ICON_OK)
  else if 50 ≤ h then ("Fair", ICON_WARNING)
  else ("Needs Improvement", ICON_ERROR)

/-- The full health-score line `_generate_health_score` returns:
`f"{icon} Project Health: {health_score:.0f}/100 ({rating})"`. -/
def generateHealthScoreLine (s : Summary) : Option String :=
  if s.total_patterns = 0 then none
  else
    let h := healthQ s
    let r := healthRating h
    some (r.2 ++ " Project Health: " ++ toString (roundHalfEven h) ++ "/100 (" ++ r.1 ++ ")")

/-- The characters strictly before the first occurrence of `pat`, or
`none` when `pat` does not occur. -/
def charsBeforeFirst (pat : List Char) : List Char → Option (List Char)
  | [] => none
  | c :: cs =>
      if pat.isPrefixOf (c :: cs) then some []
      else (charsBeforeFirst pat cs).map (fun l => c :: l)

/-- Read a non-empty all-digit character run as a natural number. -/
def digitsToNat (cs : List Char) : Option Nat :=
  if cs.isEmpty || cs.any (fun c => !c.isDigit) then none
  else some (cs.foldl (fun acc c => acc * 10 + (c.toNat - 48)) 0)

/-- Re-parse the integer of a rendered health-score line: the maximal
digit run immediately before the first `/100`. -/
def parseHealthLine (line : String) : Option Nat :=
  match charsBeforeFirst ("/100".toList) line.toList with
  | none => none
  | some before =>
      digitsToNat ((before.reverse.takeWhile (fun c => c.isDigit)).reverse)

/-- `ReportGenerator._get_category`: the first matching id-substring
bucket, with `"Other"` as the fallback. -/
def getCategory (detectionId : String) : String :=
  if containsSub detectionId "gitignore" || containsSub detectionId "git-" then
    "Git Configuration"
  else if containsSub detectionId "readme" || containsSub detectionId "contributing"
      || containsSub detectionId "license" then
    "Documentation"
  else if containsSub detectionId "ci" || containsSub detectionId "workflow"
      || containsSub detectionId "docker" then
    "CI/CD"
  else if containsSub detectionId "eslint" || containsSub detectionId "prettier" then
    "Code Quality"
  else if containsSub detectionId "editorconfig" then
    "Setup"
  else
    "Other"

/-- The insertion-ordered keys of the `categories` dict in
`ReportGenerator._generate_category_status`; note the dict has no
`"Other"` key, and the grouping loop's `if category in categories`
guard silently drops detections categorised `"Other"`. -/
def categoriesOrder : List String :=
  ["Git Configuration", "Documentation", "CI/CD", "Code Quality", "Setup"]

/-- Python's `str.title()` as used by `_get_description`'s fallback:
each cased character following a non-cased one is uppercased, the rest
are lowercased (ASCII ids only reach this code path). -/
def pyTitle (s : String) : String :=
  String.mk ((s.toList.foldl
    (fun (st : List Char × Bool) c =>
      if c.isAlpha then ((if st.2 then c.toLower else c.toUpper) :: st.1, true)
      else (c :: st.1, false))
    ([], false)).1.reverse)

/-- `ReportGenerator._get_description`: the fixed id→description table,
falling back to a title-cased de-hyphenation of the id. -/
def getDescription (detectionId : String) : String :=
  let descriptions : List (String × String) :=
    [("missing-gitignore", "Missing .gitignore"),
     ("missing-ci-workflow", "No CI/CD configuration"),
     ("missing-git-hooks", "Missing Git hooks"),
     ("missing-readme", "Missing README.md"),
     ("readme-minimal", "README.md is minimal"),
     ("missing-contributing", "Missing CONTRIBUTING.md"),
     ("missing-license", "Missing LICENSE"),
     ("missing-build-workflow", "Missing build workflow"),
     ("missing-release-workflow", "Missing release workflow"),
     ("missing-dockerfile", "Missing Dockerfile"),
     ("missing-eslint", "Missing ESLint configuration"),
     ("missing-prettier", "Missing Prettier configuration"),
     ("missing-editorconfig", "Missing .editorconfig")]
  match descriptions.lookup detectionId with
  | some d => d
  | none =>
      pyTitle (String.mk (detectionId.toList.map (fun c => if c = '-' then ' ' else c)))

/-- `ReportGenerator._format_issue`: severity icon, description,
confidence/severity tail, and the remediation block when the detection
carries a recommendation. -/
def formatIssue (d : Detection) : String :=
  let icon :=
    if d.severity == "high" then ICON_ERROR
    else if d.severity == "medium" then ICON_WARNING
    else ICON_INFO
  let head := icon ++ " " ++ getDescription d.id ++ " (confidence: " ++ d.confidence
      ++ ", severity: " ++ d.severity ++ ")"
  match d.recommendation with
  | some r =>
      head ++ "\n     → /apply-template " ++ r.template ++ "\n     Reason: " ++ r.reason
  | none => head

/-- The lines one category contributes in
`_generate_category_status`: nothing when its group is empty, otherwise
a `"<category>: <status icon>"` header (OK when no unresolved issue,
error when some unresolved issue is high-severity, warning otherwise)
followed by one indented line per unresolved issue. -/
def categoryBlock (ds : List Detection) (c : String) : List String :=
  let group := ds.filter (fun d => getCategory d.id == c)
  if group.isEmpty then []
  else
    let issues := group.filter (fun d => d.issue_found)
    let icon :=
      if issues.isEmpty then ICON_OK
      else if issues.any (fun d => d.severity == "high") then ICON_ERROR
      else ICON_WARNING
    (c ++ ": " ++ icon) :: issues.map (fun d => "  " ++ formatIssue d)

/-- `ReportGenerator._generate_category_status` as its list of output
lines: the five fixed categories in dict order, each contributing its
block; detections categorised `"Other"` belong to no block. -/
def generateCategoryStatusLines (ds : List Detection) : List String :=
  (categoriesOrder.map (categoryBlock ds)).flatten

theorem mem_insertDescBy {key : α → ℚ} {a x : α} :
    ∀ {l : List α}, x ∈ insertDescBy key a l ↔ x = a ∨ x ∈ l := by
  intro l
  induction l with
  | nil => simp [insertDescBy]
  | cons b bs ih =>
      by_cases hab : key a < key b
      · simp only [insertDescBy, if_pos hab, List.mem_cons, ih]
        tauto
      · simp only [insertDescBy, if_neg hab, List.mem_cons]

theorem pairwise_insertDescBy (key : α → ℚ) (a : α) {l : List α}
    (h : l.Pairwise (fun x y => key y ≤ key x)) :
    (insertDescBy key a l).Pairwise (fun x y => key y ≤ key x) := by
  induction l with
  | nil => simp [insertDescBy]
  | cons b bs ih =>
      rw [List.pairwise_cons] at h
      obtain ⟨hb, hbs⟩ := h
      by_cases hab : key a < key b
      · rw [insertDescBy, if_pos hab, List.pairwise_cons]
        refine ⟨?_, ih hbs⟩
        intro y hy
        rcases mem_insertDescBy.mp hy with rfl | hy
        · exact le_of_lt hab
        · exact hb y hy
      · rw [insertDescBy, if_neg hab, List.pairwise_cons]
        refine ⟨?_, List.pairwise_cons.mpr ⟨hb, hbs⟩⟩
        intro y hy
        rcases List.mem_cons.mp hy with rfl | hy
        · exact not_lt.mp hab
        · exact (hb y hy).trans (not_lt.mp hab)

theorem pairwise_sortDescBy (key : α → ℚ) (l : List α) :
    (sortDescBy key l).Pairwise (fun x y => key y ≤ key x) := by
  induction l with
  | nil => simp [sortDescBy]
  | cons a as ih => exact pairwise_insertDescBy key a ih

theorem filter_insertDescBy (key : α → ℚ) (q : ℚ) (a : α) (l : List α) :
    (insertDescBy key a l).filter (fun x => decide (key x = q))
      = if key a = q then a :: l.filter (fun x => decide (key x = q))
        else l.filter (fun x => decide (key x = q)) := by
  induction l with
  | nil => by_cases h : key a = q <;> simp [insertDescBy, h]
  | cons b bs ih =>
      by_cases hab : key a < key b
      · rw [insertDescBy, if_pos hab, List.filter_cons]
        by_cases haq : key a = q
        · have hbq : ¬ key b = q := by
            intro hbq
            rw [haq, ← hbq] at hab
            exact lt_irrefl _ hab
          simp [haq, hbq, ih, List.filter_cons]
        · by_cases hbq : key b = q <;> simp [haq, hbq, ih, List.filter_cons]
      · rw [insertDescBy, if_neg hab, List.filter_cons]
        by_cases haq : key a = q <;> simp [haq, List.filter_cons]

theorem filter_sortDescBy (key : α → ℚ) (q : ℚ) (l : List α) :
    (sortDescBy key l).filter (fun x => decide (key x = q))
      = l.filter (fun x => decide (key x = q)) := by
  induction l with
  | nil => rfl
  | cons a as ih =>
      rw [sortDescBy, filter_insertDescBy, List.filter_cons]
      by_cases h : key a = q <;> simp [h, ih]

theorem applyPattern_eq_gate (p : Rule) (files directories : List String) :
    applyPattern p files directories
      = if ruleApplies p files then some (mkDetection p files directories) else none := by
  unfold applyPattern ruleApplies
  cases p.applies_when with
  | none => simp
  | some cond =>
      by_cases h1 : cond == ""
      · simp [h1]
      · by_cases h2 : checkCondition cond files <;> simp [h1, h2]

theorem filterMap_guarded (l : List α) (c : α → Bool) (f : α → β) :
    (l.filterMap fun a => if c a then some (f a) else none) = (l.filter c).map f := by
  induction l with
  | nil => rfl
  | cons a as ih =>
      by_cases h : c a <;> simp [List.filterMap_cons, List.filter_cons, h, ih]

/-- The invariant of one (partial) scan result: both counters agree with
the lengths of their lists, and no recorded path has a component the
exclusion policy matches. -/
def InvOk (inv : Inventory) : Prop :=
  inv.directory_count = inv.directories.length
  ∧ inv.file_count = inv.files.length
  ∧ (∀ p ∈ inv.directories, ∀ c ∈ p, shouldSkip c = false)
  ∧ (∀ p ∈ inv.files, ∀ c ∈ p, shouldSkip c = false)

theorem invOk_union {a b : Inventory} (ha : InvOk a) (hb : InvOk b) :
    InvOk (a.union b) := by
  obtain ⟨ha1, ha2, ha3, ha4⟩ := ha
  obtain ⟨hb1, hb2, hb3, hb4⟩ := hb
  refine ⟨?_, ?_, ?_, ?_⟩
  · simp [Inventory.union, ha1, hb1]
  · simp [Inventory.union, ha2, hb2]
  · simp only [Inventory.union, List.mem_append]
    intro p hp
    rcases hp with hp | hp
    · exact ha3 p hp
    · exact hb3 p hp
  · simp only [Inventory.union, List.mem_append]
    intro p hp
    rcases hp with hp | hp
    · exact ha4 p hp
    · exact hb4 p hp

theorem invOk_filesInventory {base : List String} (files : List String)
    (hb : ∀ c ∈ base, shouldSkip c = false) :
    InvOk (filesInventory base files) := by
  refine ⟨by simp [filesInventory], by simp [filesInventory], by simp [filesInventory], ?_⟩
  intro p hp c hc
  simp only [filesInventory, List.mem_map, List.mem_filter] at hp
  obtain ⟨f, ⟨hf, hkeep⟩, rfl⟩ := hp
  rcases List.mem_append.mp hc with hc | hc
  · exact hb c hc
  · rw [List.mem_singleton.mp hc]
    simpa using hkeep

mutual

theorem scanDir_invOk (base : List String) (hb : ∀ c ∈ base, shouldSkip c = false) :
    ∀ t, InvOk (scanDir base t)
  | .node entries files => by
      rw [scanDir]
      exact invOk_union (scanEntries_invOk base hb entries) (invOk_filesInventory files hb)

theorem scanEntries_invOk (base : List String) (hb : ∀ c ∈ base, shouldSkip c = false) :
    ∀ es, InvOk (scanEntries base es)
  | [] => by
      rw [scanEntries]
      exact ⟨rfl, rfl, by simp, by simp⟩
  | (name, sub) :: rest => by
      rw [scanEntries]
      by_cases h : shouldSkip name
      · rw [if_pos h]
        exact scanEntries_invOk base hb rest
      · rw [if_neg h]
        have hb' : ∀ c ∈ base ++ [name], shouldSkip c = false := by
          intro c hc
          rcases List.mem_append.mp hc with hc | hc
          · exact hb c hc
          · rw [List.mem_singleton.mp hc]
            exact Bool.eq_false_iff.mpr h
        refine invOk_union ⟨rfl, rfl, ?_, by simp⟩
          (invOk_union (scanDir_invOk (base ++ [name]) hb' sub) (scanEntries_invOk base hb rest))
        intro p hp c hc
        rw [List.mem_singleton.mp hp] at hc
        exact hb' c hc

end

theorem filter_filter_of_imp {p q : α → Bool} (h : ∀ a, q a = true → p a = true)
    (l : List α) : (l.filter p).filter q = l.filter q := by
  induction l with
  | nil => rfl
  | cons a as ih =>
      by_cases hq : q a
      · have hp := h a hq
        simp [List.filter_cons, hp, hq, ih]
      · by_cases hp : p a <;> simp [List.filter_cons, hp, hq, ih]

theorem categoryBlock_restrict (ds : List Detection) {c : String}
    (hc : c ∈ categoriesOrder) :
    categoryBlock (ds.filter (fun d => categoriesOrder.contains (getCategory d.id))) c
      = categoryBlock ds c := by
  have hfil :
      (ds.filter (fun d => categoriesOrder.contains (getCategory d.id))).filter
          (fun d => getCategory d.id == c)
        = ds.filter (fun d => getCategory d.id == c) := by
    apply filter_filter_of_imp
    intro d hd
    have : getCategory d.id = c := by simpa using hd
    rw [this]
    simpa using hc
  simp only [categoryBlock, hfil]

theorem categoryBlock_cons_of_ne_nil (ds : List Detection) (c : String)
    (hne : (ds.filter fun d => getCategory d.id == c) ≠ []) :
    ∃ icon, categoryBlock ds c
      = (c ++ ": " ++ icon)
        :: ((ds.filter fun d => getCategory d.id == c).filter
              (fun d => d.issue_found)).map (fun d => "  " ++ formatIssue d) := by
  simp only [categoryBlock]
  rw [if_neg (by simpa using hne)]
  exact ⟨_, rfl⟩

/-- C1: evaluation of the code at the failing input.  For the
`directory_absence` rule with markers `['.gitlab-ci.yml',
'.github/workflows']` and an inventory whose directories contain
`.github/workflows`, `_check_directory_absence` reports the issue found
(`True`) even though the directory marker `.github/workflows` is
present as a prefix of an inventory directory: the `.yml` marker makes
the loop `return True` immediately, without consulting any file set and
without examining the remaining markers, contradicting the function's
own `Return True if ALL checks are absent` comment and the spec's
`checked for existence`. -/
theorem c1_directory_absence_yaml_marker_bug :
    checkDirectoryAbsence [".gitlab-ci.yml", ".github/workflows"] [".github/workflows"] = true
  ∧ strStartsWith ".github/workflows" ".github/workflows" = true := by
  decide

/-- C2: evaluation of the code at the failing input.  On a summary whose
counters are all present and zero, `_calculate_health_score` (and the
renderer's `_generate_health_score` alike) divides `issues_found` by
`total_patterns == 0` and raises `ZeroDivisionError` (modelled `none`):
the `summary.get('total_patterns', 1)` default only covers a missing
key, so there is no guard that treats `total_patterns == 0` as
`issues_penalty = 0`. -/
theorem c2_health_score_zero_total_raises :
    memCalculateHealthScore ⟨0, 0, 0, 0, 0⟩ = none
  ∧ genHealthPrinted ⟨0, 0, 0, 0, 0⟩ = none := by
  decide

/-- C5: a rule whose `applies_when` gate fails contributes no element to
`detections` — the detections list is exactly the in-order image of the
applicable rules — while `summary.total_patterns` is the number of
loaded rules, gate outcomes included. -/
theorem c5_applies_when_excludes_detection (ps : List Rule) (files directories : List String) :
    (detect ps files directories).summary.total_patterns = ps.length
  ∧ (detect ps files directories).detections
      = (ps.filter (fun p => ruleApplies p files)).map
          (fun p => mkDetection p files directories) := by
  constructor
  · rfl
  · show ps.filterMap (fun p => applyPattern p files directories) = _
    calc ps.filterMap (fun p => applyPattern p files directories)
        = ps.filterMap (fun p =>
            if ruleApplies p files then some (mkDetection p files directories) else none) := by
          simp only [applyPattern_eq_gate]
      _ = (ps.filter (fun p => ruleApplies p files)).map
            (fun p => mkDetection p files directories) :=
          filterMap_guarded ps _ _

/-- C6: the priority score is exactly the product
`confidence_weight(confidence) × severity_multiplier(severity) ×
severity_base(severity)` of the three fixed lookup tables with the
defaults the claim lists (unknown confidence → 0.7, unknown severity →
multiplier 0.6 and base 5). -/
theorem c6_priority_score_formula (confidence severity : String) :
    calculatePriority confidence severity
      = (if confidence = "high" then 1 else if confidence = "medium" then 0.7
         else if confidence = "low" then 0.4 else 0.7)
        * (if severity = "high" then 1 else if severity = "medium" then 0.6
           else if severity = "low" then 0.3 else 0.6)
        * (if severity = "high" then 10 else if severity = "medium" then 5
           else if severity = "low" then 2 else 5) := rfl

/-- C7: the output recommendation sequence of `detect` is sorted by
non-increasing `priority_score`, and for every score value the
subsequence of recommendations carrying that score is exactly the
corresponding subsequence of the pre-sort, rule-ordered recommendation
list — i.e. ties keep the relative order in which their rules were
evaluated (stability of `sort(key=..., reverse=True)`). -/
theorem c7_recommendations_sorted_and_stable (ps : List Rule) (files directories : List String) :
    ((detect ps files directories).recommendations).Pairwise
      (fun a b => b.priority_score ≤ a.priority_score)
  ∧ ∀ q : ℚ,
      ((detect ps files directories).recommendations).filter
          (fun r => decide (r.priority_score = q))
        = (preRecommendations
            (ps.filterMap (fun p => applyPattern p files directories))).filter
            (fun r => decide (r.priority_score = q)) := by
  constructor
  · exact pairwise_sortDescBy _ _
  · intro q
    exact filter_sortDescBy (fun r : RecOut => r.priority_score) q _

/-- C3 (amended): the renderer's printed health integer
(`{health_score:.0f}`, i.e. round-half-even) and the Health Scorer's
integer (`int(...)`, i.e. truncation toward zero of the non-negative
clamped score) are equal exactly when the clamped score's fractional
part is below one half, or equals one half with the score's integer
part even (ties round down to the even neighbour): so one issue in
three patterns prints 67 while the Scorer yields 66, whereas three
issues in eight patterns — score exactly 62.5 — print and store 62
alike. -/
theorem c3_print_store_agree_iff (s : Summary) (h0 : s.total_patterns ≠ 0) :
    genHealthPrinted s = memCalculateHealthScore s
      ↔ (healthQ s - (⌊healthQ s⌋ : ℚ) < 1 / 2
         ∨ (healthQ s - (⌊healthQ s⌋ : ℚ) = 1 / 2 ∧ ⌊healthQ s⌋ % 2 = 0)) := by
  have h1 : ¬ healthQ s < 0 := by
    rw [healthQ]
    exact not_lt.mpr (le_max_left _ _)
  unfold genHealthPrinted memCalculateHealthScore
  rw [if_neg h0, if_neg h0]
  simp only [pyInt, if_neg h1, roundHalfEven, Option.some.injEq]
  by_cases hlt : healthQ s - (⌊healthQ s⌋ : ℚ) < 1 / 2
  · rw [if_pos hlt]
    constructor
    · intro _
      exact Or.inl hlt
    · intro _
      rfl
  · rw [if_neg hlt]
    by_cases hgt : 1 / 2 < healthQ s - (⌊healthQ s⌋ : ℚ)
    · rw [if_pos hgt]
      constructor
      · intro h
        exact absurd h (by omega)
      · rintro (h | ⟨h, _⟩)
        · exact absurd h hlt
        · rw [h] at hgt
          exact absurd hgt (lt_irrefl _)
    · have heq : healthQ s - (⌊healthQ s⌋ : ℚ) = 1 / 2 :=
        le_antisymm (not_lt.mp hgt) (not_lt.mp hlt)
      rw [if_neg hgt]
      by_cases hev : ⌊healthQ s⌋ % 2 = 0
      · rw [if_pos hev]
        constructor
        · intro _
          exact Or.inr ⟨heq, hev⟩
        · intro _
          rfl
      · rw [if_neg hev]
        constructor
        · intro h
          exact absurd h (by omega)
        · rintro (h | ⟨_, h2⟩)
          · exact absurd h hlt
          · exact absurd h2 hev

/-- Witness for C3's amended theorem, exercising both sides of the
agreement condition: at one issue in ten patterns the score is exactly
90 (fractional part 0), and at three issues in eight patterns it is
exactly 62.5 (fractional part one half with even integer part 62); in
both cases the printed and stored integers agree. -/
theorem c3_print_store_agree_witness :
    genHealthPrinted ⟨10, 1, 0, 0, 0⟩ = memCalculateHealthScore ⟨10, 1, 0, 0, 0⟩
  ∧ genHealthPrinted ⟨8, 3, 0, 0, 0⟩ = memCalculateHealthScore ⟨8, 3, 0, 0, 0⟩ := by
  constructor
  · apply (c3_print_store_agree_iff ⟨10, 1, 0, 0, 0⟩ (by decide)).mpr
    apply Or.inl
    have h : healthQ ⟨10, 1, 0, 0, 0⟩ = 90 := by
      unfold healthQ
      norm_num
    rw [h]
    norm_num
  · apply (c3_print_store_agree_iff ⟨8, 3, 0, 0, 0⟩ (by decide)).mpr
    apply Or.inr
    have h : healthQ ⟨8, 3, 0, 0, 0⟩ = 125 / 2 := by
      unfold healthQ
      norm_num
    rw [h]
    constructor
    · norm_num
    · norm_num

/-- C3 counterexample: for one issue in three patterns the score is
200/3 ≈ 66.67, the rendered health-score line prints and re-parses as
67 (round-half-even) while the Health Scorer stores 66 (truncation), so
the round-trip does not recover the Scorer's integer. -/
theorem c3_round_versus_truncate_counterexample :
    genHealthPrinted ⟨3, 1, 0, 0, 0⟩ ≠ memCalculateHealthScore ⟨3, 1, 0, 0, 0⟩
  ∧ (generateHealthScoreLine ⟨3, 1, 0, 0, 0⟩).bind parseHealthLine = some 67
  ∧ memCalculateHealthScore ⟨3, 1, 0, 0, 0⟩ = some 66 := by
  refine ⟨?_, ?_, ?_⟩
  · unfold genHealthPrinted memCalculateHealthScore pyInt roundHalfEven healthQ
    norm_num
  · unfold generateHealthScoreLine healthRating roundHalfEven healthQ
    norm_num
    decide
  · unfold memCalculateHealthScore pyInt healthQ
    norm_num

/-- C8 (amended): an indicator with neither a trailing slash nor a
leading star adds its ecosystem tag not only on an exact filename match
but also whenever some inventory file path merely ends with the
indicator string; in particular any file ending in `package.json` —
including a file literally named `my-package.json` — adds the `node`
tag. -/
theorem c8_suffix_match_adds_ecosystem (files directories : List String) (f : String)
    (hf : f ∈ files) (hsuf : strEndsWith f "package.json" = true) :
    "node" ∈ detectProjectTypes files directories := by
  unfold detectProjectTypes
  apply List.mem_map.mpr
  refine ⟨("node", ["package.json", "package-lock.json", "node_modules/"]), ?_, rfl⟩
  apply List.mem_filter.mpr
  refine ⟨List.mem_cons_self _ _, ?_⟩
  apply List.any_eq_true.mpr
  refine ⟨"package.json", by simp, ?_⟩
  unfold indicatorMatches
  rw [if_neg (by decide), if_neg (by decide)]
  have hany : files.any (fun x => strEndsWith x "package.json") = true :=
    List.any_eq_true.mpr ⟨f, hf, hsuf⟩
  simp [hany]

/-- Witness for C8's amended theorem: the single file
`my-package.json` suffices for the `node` tag. -/
theorem c8_suffix_match_witness :
    "node" ∈ detectProjectTypes ["my-package.json"] [] :=
  c8_suffix_match_adds_ecosystem ["my-package.json"] [] "my-package.json"
    (List.mem_singleton.mpr rfl) (by decide)

/-- C8 counterexample: the inventory holding only `my-package.json` —
which is not the exact filename `package.json` — is classified `node`,
refuting the claim that a mere suffix match adds no ecosystem tag. -/
theorem c8_exact_filename_counterexample :
    detectProjectTypes ["my-package.json"] [] = ["node"]
  ∧ ("package.json" ∈ (["my-package.json"] : List String) → False) := by
  decide

/-- C9: for every project tree, the scanned inventory's counters equal
the lengths of its path lists, and no recorded directory or file path
has any component the exclusion policy matches (in particular nothing
below an excluded directory — whose name would be such a component —
is ever recorded). -/
theorem c9_inventory_counts_and_exclusions (t : FSDir) :
    (scanDir [] t).directory_count = (scanDir [] t).directories.length
  ∧ (scanDir [] t).file_count = (scanDir [] t).files.length
  ∧ (∀ p ∈ (scanDir [] t).directories, ∀ c ∈ p, shouldSkip c = false)
  ∧ (∀ p ∈ (scanDir [] t).files, ∀ c ∈ p, shouldSkip c = false) :=
  scanDir_invOk [] (by simp) t

/-- The tree used to witness C9: a `src` directory with one file plus a
root file. -/
def exTree : FSDir := .node [("src", .node [] ["main.py"])] ["README.md"]

/-- Witness for C9 at `exTree`: instantiating the directory-component
clause at the recorded path `["src"]` yields that `src` is not
excluded, and the counters match the list lengths. -/
theorem c9_inventory_witness :
    shouldSkip "src" = false
  ∧ (scanDir [] exTree).directory_count = (scanDir [] exTree).directories.length :=
  ⟨(c9_inventory_counts_and_exclusions exTree).2.2.1 ["src"] (by decide) "src" (by decide),
   (c9_inventory_counts_and_exclusions exTree).1⟩

/-- C10: a rule whose `type` is missing or matches none of the three
dispatch branches, and whose `applies_when` gate passes, yields a
detection with `issue_found == false`, defaulted confidence/severity
and no recommendation — exactly the record an applicable passing rule
yields — which is appended to `detections` and counted in
`total_patterns`; the output carries no error, warning or skip marker
distinguishing it. -/
theorem c10_unknown_type_counts_as_pass (ps : List Rule) (p : Rule)
    (files directories : List String)
    (hmem : p ∈ ps) (happ : ruleApplies p files = true)
    (ht : p.type ≠ some "file_absence" ∧ p.type ≠ some "directory_absence"
          ∧ p.type ≠ some "file_quality") :
    applyPattern p files directories
      = some { id := p.id, dtype := p.type,
               confidence := p.confidence.getD "medium",
               severity := p.severity.getD "medium",
               issue_found := false, recommendation := none }
  ∧ ({ id := p.id, dtype := p.type,
       confidence := p.confidence.getD "medium",
       severity := p.severity.getD "medium",
       issue_found := false, recommendation := none } : Detection)
        ∈ (detect ps files directories).detections
  ∧ (detect ps files directories).summary.total_patterns = ps.length := by
  obtain ⟨h1, h2, h3⟩ := ht
  have hd : mkDetection p files directories
      = { id := p.id, dtype := p.type,
          confidence := p.confidence.getD "medium",
          severity := p.severity.getD "medium",
          issue_found := false, recommendation := none } := by
    simp only [mkDetection]
    rw [if_neg h1, if_neg h2, if_neg h3]
    simp
  have happly : applyPattern p files directories
      = some { id := p.id, dtype := p.type,
               confidence := p.confidence.getD "medium",
               severity := p.severity.getD "medium",
               issue_found := false, recommendation := none } := by
    rw [applyPattern_eq_gate, if_pos happ, hd]
  refine ⟨happly, ?_, rfl⟩
  show _ ∈ ps.filterMap (fun r => applyPattern r files directories)
  exact List.mem_filterMap.mpr ⟨p, hmem, happly⟩

/-- The rule used to witness C10: an applicable rule of unrecognised
type `weird_type`. -/
def exUnknownRule : Rule :=
  ⟨"custom-check", some "weird_type", .str "x", none, none, none, none⟩

/-- Witness for C10 at `exUnknownRule` evaluated alone against an empty
inventory. -/
theorem c10_unknown_type_witness :
    applyPattern exUnknownRule [] []
      = some ⟨"custom-check", some "weird_type", "medium", "medium", false, none⟩
  ∧ (⟨"custom-check", some "weird_type", "medium", "medium", false, none⟩ : Detection)
      ∈ (detect [exUnknownRule] [] []).detections
  ∧ (detect [exUnknownRule] [] []).summary.total_patterns = [exUnknownRule].length :=
  c10_unknown_type_counts_as_pass [exUnknownRule] exUnknownRule [] []
    (List.mem_singleton.mpr rfl) rfl ⟨by decide, by decide, by decide⟩

/-- C4 (amended): `_get_category` assigns every detection exactly one
category, but the per-category section renders only the five named
categories: detections whose category is the fallback `"Other"` are
silently dropped (removing them changes nothing), while every named
category holding a detection gets its header line and every unresolved
issue in a named category gets its indented issue line. -/
theorem c4_named_categories_rendered_other_dropped (ds : List Detection) :
    generateCategoryStatusLines ds
      = generateCategoryStatusLines
          (ds.filter (fun d => categoriesOrder.contains (getCategory d.id)))
  ∧ (∀ c ∈ categoriesOrder,
      (∃ d, d ∈ ds ∧ getCategory d.id = c) →
        ∃ icon, (c ++ ": " ++ icon) ∈ generateCategoryStatusLines ds)
  ∧ (∀ d ∈ ds, d.issue_found = true →
      categoriesOrder.contains (getCategory d.id) = true →
        ("  " ++ formatIssue d) ∈ generateCategoryStatusLines ds) := by
  refine ⟨?_, ?_, ?_⟩
  · unfold generateCategoryStatusLines
    congr 1
    apply List.map_congr_left
    intro c hc
    exact (categoryBlock_restrict ds hc).symm
  · rintro c hc ⟨d, hd, hcat⟩
    have hne : (ds.filter fun x => getCategory x.id == c) ≠ [] := by
      intro hnil
      have hmem : d ∈ ds.filter fun x => getCategory x.id == c :=
        List.mem_filter.mpr ⟨hd, by simp [hcat]⟩
      rw [hnil] at hmem
      exact absurd hmem (List.not_mem_nil d)
    obtain ⟨icon, hblock⟩ := categoryBlock_cons_of_ne_nil ds c hne
    refine ⟨icon, ?_⟩
    unfold generateCategoryStatusLines
    apply List.mem_flatten.mpr
    refine ⟨categoryBlock ds c, List.mem_map_of_mem _ hc, ?_⟩
    rw [hblock]
    exact List.mem_cons_self _ _
  · intro d hd hissue hcont
    have hc : getCategory d.id ∈ categoriesOrder := by
      have := List.elem_iff.mp hcont
      simpa using this
    have hdg : d ∈ ds.filter fun x => getCategory x.id == getCategory d.id :=
      List.mem_filter.mpr ⟨hd, by simp⟩
    obtain ⟨icon, hblock⟩ :=
      categoryBlock_cons_of_ne_nil ds (getCategory d.id) (List.ne_nil_of_mem hdg)
    unfold generateCategoryStatusLines
    apply List.mem_flatten.mpr
    refine ⟨categoryBlock ds (getCategory d.id), List.mem_map_of_mem _ hc, ?_⟩
    rw [hblock]
    apply List.mem_cons_of_mem
    apply List.mem_map_of_mem
    exact List.mem_filter.mpr ⟨hdg, by simp [hissue]⟩

/-- The detection used for C4's counterexample: an unresolved issue
whose id matches no taxonomy substring, so its category is `"Other"`. -/
def exOtherDetection : Detection :=
  ⟨"zzz-unknown", some "file_absence", "high", "high", true, none⟩

/-- C4 counterexample: a flagged detection categorised `"Other"` is
absent from the per-category status section altogether — the section is
empty — refuting the claim that it appears under an `Other` heading. -/
theorem c4_other_detection_dropped_counterexample :
    generateCategoryStatusLines [exOtherDetection] = []
  ∧ getCategory exOtherDetection.id = "Other"
  ∧ exOtherDetection.issue_found = true := by
  decide

/-- The detection used for C4's witness: an unresolved issue in the
`Documentation` category. -/
def exReadmeDetection : Detection :=
  ⟨"missing-readme", some "file_absence", "high", "high", true, none⟩

/-- Witness for C4's amended theorem: the issue line of a Documentation
detection appears in the rendered section. -/
theorem c4_named_categories_witness :
    ("  " ++ formatIssue exReadmeDetection)
      ∈ generateCategoryStatusLines [exReadmeDetection] :=
  (c4_named_categories_rendered_other_dropped [exReadmeDetection]).2.2
    exReadmeDetection (List.mem_singleton.mpr rfl) rfl (by decide)
